import Mathlib

/-!
Verification development for the lease renewal reminder script
(`send_renewals_outlook_excel.py`).

Modelling choices (shallow embedding):
* Dates are modelled as integers (day numbers); the Python subtraction
  `(a - b).days` becomes integer subtraction, which is exact for dates.
* A spreadsheet cell holding a date is modelled by `Cell`: it is empty,
  holds a parseable date, or holds an unparseable value.  `parse_date`
  mirrors the Python helper: empty and unparseable cells give `none`,
  any parseable representation of day `d` gives `some d`.  The external
  pandas parsing machinery is a collaborator and is not re-modelled.
* String cells (`email`, `opted_out`, `first_name`, `property`, `unit`)
  are `Option String`; the Python idiom `str(row.get(c) or "")` becomes
  `Option.getD · ""` (a missing value and an empty string are both falsy
  in Python, and both map to `""`).
* The SMTP transport is an explicit collaborator
  `Transport : String → String → String → Bool`; `true` means the send
  succeeded, `false` means `send_outlook` raised.  `DRY_RUN` short
  circuits the transport and counts as success, exactly as in the code.
* `traceback.format_exc()[:300]` and `strftime` produce environment
  dependent text; they are modelled by fixed/abstract functions since no
  logic inspects their output.
* Module level settings (`MILESTONES`, `COOLDOWN_DAYS`, `DRY_RUN`,
  `SMTP_USER`, `SMTP_PASS`) are gathered in a `Config` record; the
  script's concrete values appear as `defaultConfig`.
-/

/-- Milestone configuration entry: `{"days": …, "tolerance": …, "col": …}`. -/
structure Milestone where
  days : Int
  tolerance : Int
  col : String
deriving DecidableEq, Repr

/-- A spreadsheet cell that is read through `parse_date`: it is empty
(`pd.isna(cell) or cell == ""`), holds some representation of the date `d`
(datetime, date, or a string `pd.to_datetime` accepts), or holds a value
whose parse raises. -/
inductive Cell where
  | empty
  | date (d : Int)
  | invalid
deriving DecidableEq, Repr

/-- Embeds `parse_date` (lines 84–95): empty cells and cells whose parse
fails give `None`; every parseable representation yields its date. -/
def parse_date : Cell → Option Int
  | .empty => none
  | .date d => some d
  | .invalid => none

/-- Embeds `within_window` (lines 97–99):
`(target - tol) <= days_until <= (target + tol)`. -/
def within_window (days_until target tol : Int) : Bool :=
  target - tol ≤ days_until && days_until ≤ target + tol

/-- One tenant row of the spreadsheet.  `tracking` holds the per-milestone
last-sent cells, keyed by column name (`last_sent_60`, `last_sent_30`, …);
a column that is absent reads as an empty cell, matching the script's
`df[m["col"]] = ""` initialisation of missing tracking columns. -/
structure Row where
  email : Option String
  opted_out : Option String
  first_name : Option String
  property : Option String
  unit : Option String
  lease_end_date : Cell
  tracking : List (String × Cell)
deriving DecidableEq, Repr

/-- Reads a tracking column, defaulting to an empty cell. -/
def getCol (t : List (String × Cell)) (c : String) : Cell :=
  match t.find? (fun p => p.1 = c) with
  | some p => p.2
  | none => .empty

/-- Writes a tracking column (first binding wins, new columns appended). -/
def setCol (t : List (String × Cell)) (c : String) (v : Cell) :
    List (String × Cell) :=
  match t with
  | [] => [(c, v)]
  | p :: rest => if p.1 = c then (c, v) :: rest else p :: setCol rest c v

/-- Embeds `df.at[idx, m["col"]] = today.strftime("%Y-%m-%d")` (line 194).
The stored ISO string parses back to the same date via `pd.to_datetime`,
so the stamped cell is modelled as `Cell.date today`. -/
def stampRow (row : Row) (c : String) (today : Int) : Row :=
  { row with tracking := setCol row.tracking c (.date today) }

/-- Run configuration: the module level settings of the script. -/
structure Config where
  milestones : List Milestone
  cooldownDays : Int
  smtpUser : Option String
  smtpPass : Option String
  dryRun : Bool

/-- The script's concrete settings (lines 48–54). -/
def defaultConfig (user pass_ : Option String) : Config :=
  { milestones := [⟨60, 2, "last_sent_60"⟩, ⟨30, 2, "last_sent_30"⟩]
    cooldownDays := 21
    smtpUser := user
    smtpPass := pass_
    dryRun := false }

/-- Python truthiness of an optional environment string: `None` and `""`
are falsy (`if not (SMTP_USER and SMTP_PASS)`). -/
def truthy : Option String → Bool
  | none => false
  | some s => !(s = "")

/-- The mail transport collaborator: `send(to, subject, html)`; `true`
means delivery succeeded, `false` means the send raised. -/
def Transport : Type := String → String → String → Bool

/-- Embeds `send_outlook` (lines 101–118) as seen by the caller: in
`DRY_RUN` it prints and returns (success, no transport call); otherwise
the outcome is the transport's. -/
def send_outlook (cfg : Config) (tr : Transport)
    (to_addr subject html : String) : Bool :=
  if cfg.dryRun then true else tr to_addr subject html

/-- One line of `send_log.csv`: status, recipient, note (the timestamp is
wall-clock output and not modelled). -/
structure LogEntry where
  status : String
  email : String
  note : String
deriving DecidableEq, Repr

/-- Personalisation context built at lines 177–182. -/
structure Ctx where
  first_name : String
  property : String
  unit : String
  lease_end_fmt : String
deriving DecidableEq, Repr

/-- Executable embedding of Python `str.strip()`: removes leading and
trailing whitespace (defined over the character list so it evaluates). -/
def pyStrip (s : String) : String :=
  ⟨((s.data.dropWhile Char.isWhitespace).reverse.dropWhile
      Char.isWhitespace).reverse⟩

/-- Executable embedding of Python `str.lower()`. -/
def pyLower (s : String) : String := ⟨s.data.map Char.toLower⟩

/-- Embeds `str(row.get(c) or dflt).strip()`: a missing or empty value
falls back to the default, then whitespace is stripped. -/
def cellStr (v : Option String) (dflt : String) : String :=
  pyStrip (if v.getD "" = "" then dflt else v.getD "")

/-- The context of lines 177–182: `first_name` falls back to `"there"`,
`property` and `unit` fall back to `""`. -/
def mkCtx (row : Row) (lease_end_fmt : String) : Ctx :=
  { first_name := cellStr row.first_name "there"
    property := cellStr row.property ""
    unit := cellStr row.unit ""
    lease_end_fmt := lease_end_fmt }

/-- Subject template `SUBJECT_60` applied to a context. -/
def subject60 (ctx : Ctx) : String :=
  "Let\x27s lock in renewal options for " ++ ctx.property ++
    " — Unit " ++ ctx.unit

/-- Subject template `SUBJECT_30` applied to a context. -/
def subject30 (ctx : Ctx) : String :=
  "30 days left for " ++ ctx.property ++
    " — Renewal options for Unit " ++ ctx.unit

/-- Body template `HTML_60` applied to a context; the constant HTML
boilerplate between placeholders is abbreviated (no logic reads it), the
substituted fields and their order are preserved. -/
def html60 (ctx : Ctx) : String :=
  "Hi " ++ ctx.first_name ++ ", your lease for " ++ ctx.property ++
    " – " ++ ctx.unit ++ " ends on " ++ ctx.lease_end_fmt ++
    " (about 60 days out)."

/-- Body template `HTML_30` applied to a context; boilerplate abbreviated
as for `html60`. -/
def html30 (ctx : Ctx) : String :=
  "Hi " ++ ctx.first_name ++ ", quick reminder: your lease for " ++
    ctx.property ++ " – " ++ ctx.unit ++ " ends on " ++
    ctx.lease_end_fmt ++ " (about 30 days)."

/-- Abstracts `lease_end.strftime("%b %d, %Y")`: display-only rendering of
a date, never inspected by the workflow logic. -/
def fmtDate (d : Int) : String := toString d

/-- Placeholder for `traceback.format_exc()[:300]`: environment dependent
text recorded in error log entries. -/
def tracebackText : String := "traceback"

/-- Observable outcome of a piece of the per-row loop: the (possibly
stamped) row, the appended log entries, the milestone columns whose
`sent_counter` entry was incremented, and the recipients passed to
`send_outlook` (transport attempts). -/
structure StepResult where
  row : Row
  logs : List LogEntry
  sentCols : List String
  attempts : List String
deriving DecidableEq, Repr

/-- The cooldown test of lines 171–174:
`last_sent and (today - last_sent).days < COOLDOWN_DAYS`
(a parsed date is always truthy in Python). -/
def cooldownActive (cfg : Config) (today : Int) (row : Row) (m : Milestone) :
    Bool :=
  match parse_date (getCol row.tracking m.col) with
  | some ls => today - ls < cfg.cooldownDays
  | none => false

/-- Embeds one iteration of the inner milestone loop (lines 170–198):
cooldown suppression, window test, template selection, send attempt, and
on success the stamp, counter increment and "sent" log entry; on a raised
send, the "error" log entry with the record left unstamped. -/
def processMilestone (cfg : Config) (tr : Transport)
    (today days_until : Int) (lease_end_fmt email_addr : String)
    (row : Row) (m : Milestone) : StepResult :=
  if cooldownActive cfg today row m then
    ⟨row, [], [], []⟩
  else if within_window days_until m.days m.tolerance then
    let ctx := mkCtx row lease_end_fmt
    let subject := if m.days = 60 then subject60 ctx else subject30 ctx
    let html := if m.days = 60 then html60 ctx else html30 ctx
    if send_outlook cfg tr email_addr subject html then
      ⟨stampRow row m.col today,
        [⟨"sent", email_addr, "milestone=" ++ toString m.days⟩],
        [m.col], [email_addr]⟩
    else
      ⟨row, [⟨"error", email_addr, tracebackText⟩], [], [email_addr]⟩
  else
    ⟨row, [], [], []⟩

/-- Folds the milestone loop over the declared milestones in order,
threading the row (a stamp made for one milestone is visible to the
next) and concatenating the observations. -/
def runMilestones (cfg : Config) (tr : Transport)
    (today days_until : Int) (lease_end_fmt email_addr : String) :
    Row → List Milestone → StepResult
  | row, [] => ⟨row, [], [], []⟩
  | row, m :: ms =>
    let r1 := processMilestone cfg tr today days_until lease_end_fmt
      email_addr row m
    let r2 := runMilestones cfg tr today days_until lease_end_fmt
      email_addr r1.row ms
    ⟨r2.row, r1.logs ++ r2.logs, r1.sentCols ++ r2.sentCols,
      r1.attempts ++ r2.attempts⟩

/-- The recipient address as computed at line 153:
`str(row.get("email") or "").strip()`. -/
def emailStr (row : Row) : String := pyStrip (row.email.getD "")

/-- The opt-out test of line 157:
`str(row.get("opted_out") or "").lower() in ("true", "yes", "1")`. -/
def optedOut (row : Row) : Bool :=
  let s := pyLower (row.opted_out.getD "")
  s = "true" || s = "yes" || s = "1"

/-- Embeds one iteration of the outer row loop (lines 152–198): silent
skip on empty email, logged skip on opt-out, logged skip on a lease-end
date that does not parse, and otherwise the milestone loop with
`days_until = lease_end - today`. -/
def processRow (cfg : Config) (tr : Transport) (today : Int) (row : Row) :
    StepResult :=
  let email_addr := emailStr row
  if email_addr = "" then
    ⟨row, [], [], []⟩
  else if optedOut row then
    ⟨row, [⟨"skip", email_addr, "opted_out"⟩], [], []⟩
  else
    match parse_date row.lease_end_date with
    | none => ⟨row, [⟨"skip", email_addr, "invalid lease_end_date"⟩], [], []⟩
    | some lease_end =>
      runMilestones cfg tr today (lease_end - today) (fmtDate lease_end)
        email_addr row cfg.milestones

/-- Observable outcome of a whole run: the rows written back to the
spreadsheet, the appended log, the incremented counter columns and the
transport attempts. -/
structure RunResult where
  rows : List Row
  logs : List LogEntry
  sentCols : List String
  attempts : List String
deriving DecidableEq, Repr

/-- Processes the rows in order, collecting the updated rows and the
concatenated observations. -/
def processRows (cfg : Config) (tr : Transport) (today : Int) :
    List Row → RunResult
  | [] => ⟨[], [], [], []⟩
  | r :: rs =>
    let r1 := processRow cfg tr today r
    let r2 := processRows cfg tr today rs
    ⟨r1.row :: r2.rows, r1.logs ++ r2.logs, r1.sentCols ++ r2.sentCols,
      r1.attempts ++ r2.attempts⟩

/-- Embeds `process_reminders` (lines 132–204): the credential guard
(`raise SystemExit` before the spreadsheet is read when `SMTP_USER` or
`SMTP_PASS` is falsy), then the row loop, then the write-back of the
updated rows carried in the `RunResult`. -/
def process_reminders (cfg : Config) (tr : Transport) (today : Int)
    (rows : List Row) : Except String RunResult :=
  if truthy cfg.smtpUser && truthy cfg.smtpPass then
    .ok (processRows cfg tr today rows)
  else
    .error "Missing SMTP_USER SMTP_PASS environment variables"

/-- C1: the window evaluator accepts exactly the closed interval
`[D - T, D + T]` around the offset. -/
theorem within_window_iff (days_until D T : Int) :
    within_window days_until D T = true ↔
      D - T ≤ days_until ∧ days_until ≤ D + T := by
  simp [within_window]

/-- C7: a record whose `days_until` equals the milestone offset matches
for every tolerance value ≥ 0. -/
theorem within_window_at_offset (D T : Int) (h : 0 ≤ T) :
    within_window D D T = true := by
  simp [within_window]
  omega

/-- Witness for C7 at offset 60, tolerance 2. -/
theorem within_window_at_offset_witness :
    (0 : Int) ≤ 2 ∧ within_window 60 60 2 = true :=
  ⟨by decide, within_window_at_offset 60 2 (by decide)⟩

/-- C8: with tolerance 0 the window evaluator is exact-day matching: it
accepts exactly `days_until = D` and rejects `D + 1` and `D - 1`. -/
theorem within_window_exact (days_until D : Int) :
    (within_window days_until D 0 = true ↔ days_until = D) ∧
      within_window (D + 1) D 0 = false ∧
      within_window (D - 1) D 0 = false := by
  refine ⟨?_, ?_, ?_⟩
  · constructor
    · intro h
      simp [within_window] at h
      omega
    · intro h
      simp [within_window]
      omega
  · simp [within_window]
  · simp [within_window]

/-- Reading back the column just written returns the written cell. -/
theorem getCol_setCol (t : List (String × Cell)) (c : String) (v : Cell) :
    getCol (setCol t c v) c = v := by
  induction t with
  | nil => simp [getCol, setCol]
  | cons p rest ih =>
    unfold setCol
    by_cases h : p.1 = c
    · simp [getCol, List.find?, h]
    · simpa [getCol, List.find?, h] using ih

/-- C2: a set last-sent date within the cooldown suppresses the milestone
entirely — the row is unchanged (no stamp), nothing is logged, the
counter is untouched and the transport is never invoked, whatever the
window says. -/
theorem cooldown_suppresses (cfg : Config) (tr : Transport)
    (today days_until : Int) (lease_end_fmt email_addr : String)
    (row : Row) (m : Milestone) (ls : Int)
    (h1 : parse_date (getCol row.tracking m.col) = some ls)
    (h2 : today - ls < cfg.cooldownDays) :
    processMilestone cfg tr today days_until lease_end_fmt email_addr row m
      = ⟨row, [], [], []⟩ := by
  unfold processMilestone cooldownActive
  rw [h1]
  simp [h2]

/-- Example transport that always succeeds. -/
def trTrue : Transport := fun _ _ _ => true

/-- Example transport that always fails (the send raises). -/
def trFalse : Transport := fun _ _ _ => false

/-- Example configuration with credentials present. -/
def cfgEx : Config := defaultConfig (some "user") (some "pw")

/-- Example row whose 60-day milestone was last sent on day 0. -/
def rowCooled : Row :=
  ⟨some "a@b.c", none, none, none, none, .date 65,
    [("last_sent_60", .date 0)]⟩

/-- The 60-day milestone of the script's configuration. -/
def m60 : Milestone := ⟨60, 2, "last_sent_60"⟩

/-- Witness for C2: five days after a send, with the default 21-day
cooldown, the milestone is suppressed. -/
theorem cooldown_suppresses_witness :
    processMilestone cfgEx trTrue 5 60 "fmt" "a@b.c" rowCooled m60
      = ⟨rowCooled, [], [], []⟩ :=
  cooldown_suppresses cfgEx trTrue 5 60 "fmt" "a@b.c" rowCooled m60 0
    (by decide) (by decide)

/-- C3: after stamping a milestone's tracking field with today's date,
re-evaluating the same row on the same day with any cooldown ≥ 1
suppresses a repeat match: nothing is sent, logged or re-stamped. -/
theorem stamp_roundtrip_suppresses (cfg : Config) (tr : Transport)
    (today days_until : Int) (lease_end_fmt email_addr : String)
    (row : Row) (m : Milestone) (h : 1 ≤ cfg.cooldownDays) :
    processMilestone cfg tr today days_until lease_end_fmt email_addr
      (stampRow row m.col today) m
      = ⟨stampRow row m.col today, [], [], []⟩ := by
  have hcell : getCol (stampRow row m.col today).tracking m.col
      = Cell.date today := getCol_setCol _ _ _
  have hca : cooldownActive cfg today (stampRow row m.col today) m
      = true := by
    unfold cooldownActive
    rw [hcell]
    simp only [parse_date]
    simp only [decide_eq_true_eq]
    omega
  unfold processMilestone
  rw [hca]
  simp

/-- Example row with no prior sends and lease ending on day 60. -/
def rowPlain : Row := ⟨some "a@b.c", none, none, none, none, .date 60, []⟩

/-- Witness for C3: stamping `last_sent_60` today and re-running today
with the default 21-day cooldown produces no repeat match. -/
theorem stamp_roundtrip_suppresses_witness :
    processMilestone cfgEx trTrue 0 60 "fmt" "a@b.c"
      (stampRow rowPlain "last_sent_60" 0) m60
      = ⟨stampRow rowPlain "last_sent_60" 0, [], [], []⟩ :=
  stamp_roundtrip_suppresses cfgEx trTrue 0 60 "fmt" "a@b.c" rowPlain m60
    (by decide)

/-- C4 (amended): a record with a nonempty email, not opted out, whose
lease-end cell is empty or unparseable is skipped with one "skip" audit
entry, never stamped, never counted, and the transport is never invoked,
for every milestone configuration. -/
theorem invalid_date_skipped (cfg : Config) (tr : Transport) (today : Int)
    (row : Row) (h1 : emailStr row ≠ "") (h2 : optedOut row = false)
    (h3 : parse_date row.lease_end_date = none) :
    processRow cfg tr today row
      = ⟨row, [⟨"skip", emailStr row, "invalid lease_end_date"⟩], [], []⟩ := by
  simp [processRow, h1, h2, h3]

/-- Example row with a nonempty email and an unparseable lease-end cell. -/
def rowBadDate : Row := ⟨some "a@b.c", none, none, none, none, .invalid, []⟩

/-- Witness for C4: the unparseable-date row yields exactly one skip
entry and no other effect. -/
theorem invalid_date_skipped_witness :
    processRow cfgEx trTrue 0 rowBadDate
      = ⟨rowBadDate,
          [⟨"skip", emailStr rowBadDate, "invalid lease_end_date"⟩], [], []⟩ :=
  invalid_date_skipped cfgEx trTrue 0 rowBadDate (by decide) (by decide)
    (by decide)

/-- Example row with no email and an unparseable lease-end cell. -/
def rowNoEmailBadDate : Row := ⟨none, none, none, none, none, .invalid, []⟩

/-- C4 counterexample: a record with an unparseable lease-end date but an
empty email is skipped with NO audit entry at all — the claimed skip
audit entry is not written for every such record. -/
theorem invalid_date_skipped_counterexample :
    parse_date rowNoEmailBadDate.lease_end_date = none ∧
    processRow cfgEx trTrue 0 rowNoEmailBadDate
      = ⟨rowNoEmailBadDate, [], [], []⟩ := by
  exact ⟨rfl, by decide⟩

/-- C5: when the transport raises for a matching milestone, an "error"
log entry is appended, the row is left unstamped, no counter column is
recorded, and processing continues with the remaining milestones of the
row and (structurally) with the remaining rows of the run. -/
theorem transport_failure_logged (cfg : Config) (tr : Transport)
    (today days_until : Int) (lease_end_fmt email_addr : String)
    (row : Row) (m : Milestone) (ms : List Milestone) (rs : List Row)
    (hcd : cooldownActive cfg today row m = false)
    (hw : within_window days_until m.days m.tolerance = true)
    (hdry : cfg.dryRun = false)
    (htr : ∀ s h, tr email_addr s h = false) :
    runMilestones cfg tr today days_until lease_end_fmt email_addr row
        (m :: ms)
      = ⟨(runMilestones cfg tr today days_until lease_end_fmt email_addr
            row ms).row,
          ⟨"error", email_addr, tracebackText⟩
            :: (runMilestones cfg tr today days_until lease_end_fmt
                  email_addr row ms).logs,
          (runMilestones cfg tr today days_until lease_end_fmt email_addr
            row ms).sentCols,
          email_addr
            :: (runMilestones cfg tr today days_until lease_end_fmt
                  email_addr row ms).attempts⟩
      ∧ (processRows cfg tr today (row :: rs)).rows
          = (processRow cfg tr today row).row
              :: (processRows cfg tr today rs).rows := by
  have hpm : processMilestone cfg tr today days_until lease_end_fmt
      email_addr row m
      = ⟨row, [⟨"error", email_addr, tracebackText⟩], [], [email_addr]⟩ := by
    simp [processMilestone, hcd, hw, send_outlook, hdry, htr]
  constructor
  · simp [runMilestones, hpm]
  · simp [processRows]

/-- The 30-day milestone of the script's configuration. -/
def ms30 : List Milestone := [⟨30, 2, "last_sent_30"⟩]

/-- Witness for C5: a failing transport on the matching 60-day milestone
logs an error, leaves the row unstamped, and the 30-day milestone and the
rest of the run are still processed. -/
theorem transport_failure_logged_witness :
    runMilestones cfgEx trFalse 0 60 "fmt" "a@b.c" rowPlain (m60 :: ms30)
      = ⟨(runMilestones cfgEx trFalse 0 60 "fmt" "a@b.c" rowPlain ms30).row,
          ⟨"error", "a@b.c", tracebackText⟩
            :: (runMilestones cfgEx trFalse 0 60 "fmt" "a@b.c" rowPlain
                  ms30).logs,
          (runMilestones cfgEx trFalse 0 60 "fmt" "a@b.c" rowPlain
            ms30).sentCols,
          "a@b.c"
            :: (runMilestones cfgEx trFalse 0 60 "fmt" "a@b.c" rowPlain
                  ms30).attempts⟩
      ∧ (processRows cfgEx trFalse 0 (rowPlain :: [])).rows
          = (processRow cfgEx trFalse 0 rowPlain).row
              :: (processRows cfgEx trFalse 0 []).rows :=
  transport_failure_logged cfgEx trFalse 0 60 "fmt" "a@b.c" rowPlain m60
    ms30 [] (by decide) (by decide) (by decide) (fun _ _ => rfl)

/-- C6: with a missing (or empty) SMTP user or password the run aborts
with the configuration error before any row is touched: the result
carries no row updates, no log entries, no sends — and equals the result
of running on an empty spreadsheet, i.e. a no-op. -/
theorem missing_credentials_abort (cfg : Config) (tr : Transport)
    (today : Int) (rows : List Row)
    (h : truthy cfg.smtpUser = false ∨ truthy cfg.smtpPass = false) :
    process_reminders cfg tr today rows
        = .error "Missing SMTP_USER SMTP_PASS environment variables"
      ∧ process_reminders cfg tr today rows
        = process_reminders cfg tr today [] := by
  unfold process_reminders
  rcases h with h | h <;> simp [h]

/-- Witness for C6: an absent SMTP user aborts the run on a nonempty
spreadsheet. -/
theorem missing_credentials_abort_witness :
    process_reminders (defaultConfig none (some "pw")) trTrue 0 [rowPlain]
        = .error "Missing SMTP_USER SMTP_PASS environment variables"
      ∧ process_reminders (defaultConfig none (some "pw")) trTrue 0 [rowPlain]
        = process_reminders (defaultConfig none (some "pw")) trTrue 0 [] :=
  missing_credentials_abort (defaultConfig none (some "pw")) trTrue 0
    [rowPlain] (Or.inl (by decide))

/-- C9 (amended): missing `property` and `unit` are substituted as the
empty string, a missing `first_name` is substituted as the fallback
`"there"`, and a record with a missing recipient address is skipped
before any rendering happens. -/
theorem render_missing_fields (cfg : Config) (tr : Transport) (today : Int)
    (row : Row) (lease_end_fmt : String)
    (h1 : row.first_name = none) (h2 : row.property = none)
    (h3 : row.unit = none) :
    mkCtx row lease_end_fmt = ⟨"there", "", "", lease_end_fmt⟩
      ∧ (emailStr row = "" → processRow cfg tr today row
            = ⟨row, [], [], []⟩) := by
  constructor
  · have hctx : mkCtx row lease_end_fmt
        = ⟨cellStr none "there", cellStr none "", cellStr none "",
            lease_end_fmt⟩ := by
      unfold mkCtx
      rw [h1, h2, h3]
    rw [hctx, show cellStr none "there" = "there" from by decide,
      show cellStr none "" = "" from by decide]
  · intro h
    simp [processRow, h]

/-- Example row with no email and no personalization fields. -/
def rowBare : Row := ⟨none, none, none, none, none, .date 60, []⟩

/-- Witness for C9: the bare row renders to the fallback context and is
skipped silently. -/
theorem render_missing_fields_witness :
    mkCtx rowBare "fmt" = ⟨"there", "", "", "fmt"⟩
      ∧ processRow cfgEx trTrue 0 rowBare = ⟨rowBare, [], [], []⟩ :=
  ⟨(render_missing_fields cfgEx trTrue 0 rowBare "fmt" rfl rfl rfl).1,
   (render_missing_fields cfgEx trTrue 0 rowBare "fmt" rfl rfl rfl).2
     (by decide)⟩

/-- C9 counterexample: with `first_name` missing, the rendered context
substitutes `"there"`, not the empty string. -/
theorem render_missing_fields_counterexample :
    rowBare.first_name = none
      ∧ (mkCtx rowBare "fmt").first_name = "there"
      ∧ ¬ (mkCtx rowBare "fmt").first_name = "" := by
  refine ⟨rfl, by decide, by decide⟩

/-- C10: the three early exits of the row loop — an empty or missing
email is skipped silently (no audit entry), an opted-out row logs a
"skip" entry, an unparseable lease-end date logs a "skip" entry; in all
three cases the row is unchanged, nothing is counted and the transport
is never invoked. -/
theorem skip_paths (cfg : Config) (tr : Transport) (today : Int)
    (row : Row) :
    (emailStr row = "" → processRow cfg tr today row = ⟨row, [], [], []⟩)
      ∧ (emailStr row ≠ "" → optedOut row = true →
          processRow cfg tr today row
            = ⟨row, [⟨"skip", emailStr row, "opted_out"⟩], [], []⟩)
      ∧ (emailStr row ≠ "" → optedOut row = false →
          parse_date row.lease_end_date = none →
          processRow cfg tr today row
            = ⟨row, [⟨"skip", emailStr row, "invalid lease_end_date"⟩],
                [], []⟩) := by
  refine ⟨?_, ?_, ?_⟩
  · intro h
    simp [processRow, h]
  · intro h1 h2
    simp [processRow, h1, h2]
  · intro h1 h2 h3
    simp [processRow, h1, h2, h3]

/-- Example opted-out row. -/
def rowOpted : Row :=
  ⟨some "a@b.c", some "yes", none, none, none, .date 60, []⟩

/-- Witness for C10: the three skip paths at concrete rows. -/
theorem skip_paths_witness :
    processRow cfgEx trTrue 0 rowBare = ⟨rowBare, [], [], []⟩
      ∧ processRow cfgEx trTrue 0 rowOpted
          = ⟨rowOpted, [⟨"skip", emailStr rowOpted, "opted_out"⟩], [], []⟩
      ∧ processRow cfgEx trTrue 0 rowBadDate
          = ⟨rowBadDate,
              [⟨"skip", emailStr rowBadDate, "invalid lease_end_date"⟩],
              [], []⟩ :=
  ⟨(skip_paths cfgEx trTrue 0 rowBare).1 (by decide),
   (skip_paths cfgEx trTrue 0 rowOpted).2.1 (by decide) (by decide),
   (skip_paths cfgEx trTrue 0 rowBadDate).2.2 (by decide) (by decide)
     (by decide)⟩
